import Mathlib

/-
Shallow embedding of the OAuth session managers and JSON-RPC dispatch loops of
the two MCP servers in this repository:

  * src/jira_mcp_stdio.py  — `OAuthTokenManager`, `JiraMCPServer`, `handle_request`, `main`
  * src/ado_mcp_stdio.py   — `ADOOAuthTokenManager`, `ADOMCPServer`, `handle_request`, `main`

HTTP interactions (the token endpoint, the accessible-resources / organizations
calls) are passed in as explicit environment values describing the response the
network produced; `none` stands for a transport-level exception.  Timestamps
(`time.time()`) are modelled as integers passed in as `now`.  Python truthiness
of optional strings / numbers is modelled explicitly, since the source guards
with `if not self.access_token:` and `if self.expires_at and ...:`.
-/

/-- Python truthiness of an optional string: `None` and `""` are falsy. -/
def pyTruthy : Option String → Bool
  | none => false
  | some s => !s.isEmpty

/-- Python truthiness of an optional integer: `None` and `0` are falsy
(models `if self.expires_at and ...`). -/
def pyTruthyInt : Option Int → Bool
  | none => false
  | some n => n != 0

/-- The JSON body of a token-endpoint response, restricted to the fields the
source reads via `tokens.get(...)` / `'refresh_token' in tokens`.  A field is
`none` when the key is absent from the JSON object. -/
structure TokenJson where
  access_token : Option String
  refresh_token : Option String
  expires_in : Option Int
deriving DecidableEq

/-- An HTTP response from the token endpoint: a status code plus parsed JSON
body (`response.status_code`, `response.json()`). -/
structure TokenResponse where
  status : Int
  body : TokenJson
deriving DecidableEq

/-
JSON-RPC dispatch model (`handle_request` and the `main` read loop of both
files).  A stdin line either fails `json.loads` (modelled by `badJson` carrying
the exception text) or parses to an object from which the source reads
`method` (`none` when the key is absent) and `id`.  Ids are modelled as
integers; the source merely echoes them back.  Lines that parse to truthy
non-objects (for example the line `5`) raise inside the `except` handler and
abort the read loop; they are outside this model, which covers non-JSON lines
and JSON-object lines.
-/

/-- One stdin line as seen by `handle_request`. -/
inductive Line
  | badJson (errMsg : String)
  | req (method : Option String) (id : Option Int)
deriving DecidableEq

/-- The value bound to the Python local `result` before it is wrapped into the
response envelope.  The three routed handlers return fixed-shape dicts whose
contents no claim inspects, so they are collapsed to opaque tags; the unknown-
method branch builds the dict `{"error": {"code": -32601, "message": ...}}`,
which is `errorObject` here. -/
inductive RpcResult
  | initResult
  | toolsListResult
  | toolsCallResult
  | errorObject (code : Int) (message : String)
deriving DecidableEq

/-- The payload of a response envelope: either a `"result"` member or a
top-level `"error"` member (the two dict shapes built in `handle_request`). -/
inductive RespBody
  | result (r : RpcResult)
  | error (code : Int) (message : String)
deriving DecidableEq

/-- A response envelope `{"jsonrpc": "2.0", "id": ..., result|error}`. -/
structure Response where
  id : Option Int
  body : RespBody
deriving DecidableEq

/-- Rendering of the `method` value inside the f-string
`f"Method not found: {method}"` (`None` prints as `None`). -/
def methodText : Option String → String
  | none => "None"
  | some m => m

/-- `handle_request` of src/jira_mcp_stdio.py (lines 1195-1235): dispatches on
`method`; `notifications/initialized` returns `None` (no response); unknown
methods set `result` to an error-shaped dict and fall through to the envelope
that wraps it under the `"result"` key; a `json.loads` failure lands in the
`except` branch which emits a top-level `"error"` member with code -32603. -/
def Jira.handleRequest : Line → Option Response
  | .badJson msg => some ⟨none, .error (-32603) ("Internal error: " ++ msg)⟩
  | .req method id =>
    match method with
    | some "initialize" => some ⟨id, .result .initResult⟩
    | some "notifications/initialized" => none
    | some "tools/list" => some ⟨id, .result .toolsListResult⟩
    | some "tools/call" => some ⟨id, .result .toolsCallResult⟩
    | m => some ⟨id, .result (.errorObject (-32601) ("Method not found: " ++ methodText m))⟩

/-- `handle_request` of src/ado_mcp_stdio.py (lines 1726-1762): identical to
the Jira dispatcher except that it has no `notifications/initialized` branch,
so that method falls into the unknown-method arm. -/
def ADO.handleRequest : Line → Option Response
  | .badJson msg => some ⟨none, .error (-32603) ("Internal error: " ++ msg)⟩
  | .req method id =>
    match method with
    | some "initialize" => some ⟨id, .result .initResult⟩
    | some "tools/list" => some ⟨id, .result .toolsListResult⟩
    | some "tools/call" => some ⟨id, .result .toolsCallResult⟩
    | m => some ⟨id, .result (.errorObject (-32601) ("Method not found: " ++ methodText m))⟩

/-- The `main` read loop of src/jira_mcp_stdio.py: for each stdin line in
order, print the response `handle_request` returned, skipping `None`. -/
def Jira.processLines (lines : List Line) : List Response :=
  lines.filterMap Jira.handleRequest

/-- The `main` read loop of src/ado_mcp_stdio.py. -/
def ADO.processLines (lines : List Line) : List Response :=
  lines.filterMap ADO.handleRequest

/-
`OAuthTokenManager` of src/jira_mcp_stdio.py.  The mutable instance fields are
collected in `Jira.MgrState`; the `threading.Event` `auth_complete` is the
boolean `authComplete` (set / not set — the event is only ever `.set()`, and
`.wait(timeout)` returns `True` immediately when it is set).
-/

/-- Mutable state of `OAuthTokenManager` (src/jira_mcp_stdio.py lines 56-74). -/
structure Jira.MgrState where
  client_id : String
  client_secret : String
  redirect_uri : String
  access_token : Option String
  refresh_token : Option String
  cloud_id : Option String
  expires_at : Option Int
  authComplete : Bool
deriving DecidableEq

/-- `_get_cloud_id` (src/jira_mcp_stdio.py lines 179-206) restricted to its
effect on the state.  `cloudEnv` summarizes the accessible-resources HTTP
call: `some cid` when it returned 200 with a non-empty list whose first entry
has id `cid` (then `self.cloud_id = resources[0]['id']`), `none` for every
other outcome (non-200, empty list, exception), in which case the method only
logs and leaves the state untouched.  The leading guard mirrors
`if not self.access_token: return False`. -/
def Jira.getCloudId (s : Jira.MgrState) (cloudEnv : Option String) : Jira.MgrState :=
  if pyTruthy s.access_token = false then s
  else
    match cloudEnv with
    | some cid => { s with cloud_id := some cid }
    | none => s

/-- `_exchange_code_for_tokens` (src/jira_mcp_stdio.py lines 144-177).
`resp = none` stands for the whole `try` body raising before any field is
assigned (`requests.post` or `response.json()` throwing), which the `except`
turns into `False`.  On HTTP 200 the three token fields are assigned from the
body (`tokens.get`, with default 3600 for `expires_in`), `expires_at` becomes
`time.time() + expires_in - 300`, and `_get_cloud_id` runs; any other status
returns `False` without touching the state. -/
def Jira.exchangeCodeForTokens (s : Jira.MgrState) (resp : Option TokenResponse)
    (cloudEnv : Option String) (now : Int) : Bool × Jira.MgrState :=
  match resp with
  | none => (false, s)
  | some r =>
    if r.status = 200 then
      let s1 := { s with
        access_token := r.body.access_token,
        refresh_token := r.body.refresh_token,
        expires_at := some (now + r.body.expires_in.getD 3600 - 300) }
      (true, Jira.getCloudId s1 cloudEnv)
    else (false, s)

/-- `refresh_access_token` (src/jira_mcp_stdio.py lines 208-245).  The third
component counts POSTs to the token endpoint (0 when the method fails fast on
a missing refresh token, 1 otherwise).  On HTTP 200 the stored refresh token
is replaced only when the response carries a `refresh_token` key
(`if 'refresh_token' in tokens:`). -/
def Jira.refreshAccessToken (s : Jira.MgrState) (resp : Option TokenResponse)
    (now : Int) : Bool × Jira.MgrState × Nat :=
  if pyTruthy s.refresh_token = false then (false, s, 0)
  else
    match resp with
    | none => (false, s, 1)
    | some r =>
      if r.status = 200 then
        (true,
         { s with
            access_token := r.body.access_token,
            refresh_token := match r.body.refresh_token with
              | some t => some t
              | none => s.refresh_token,
            expires_at := some (now + r.body.expires_in.getD 3600 - 300) },
         1)
      else (false, s, 1)

/-- The expiry test of `get_valid_token`:
`if self.expires_at and time.time() >= self.expires_at:` — note the Python
truthiness of `expires_at` (a stored `0` skips the check). -/
def Jira.tokenExpired (s : Jira.MgrState) (now : Int) : Bool :=
  pyTruthyInt s.expires_at && decide (now ≥ s.expires_at.getD 0)

/-- `get_valid_token` (src/jira_mcp_stdio.py lines 247-258).  The third
component counts invocations of `refresh_access_token`.  On a failed refresh
the method returns `None`; otherwise it returns the (possibly refreshed)
stored `access_token`. -/
def Jira.getValidToken (s : Jira.MgrState) (resp : Option TokenResponse)
    (now : Int) : Option String × Jira.MgrState × Nat :=
  if pyTruthy s.access_token = false then (none, s, 0)
  else if Jira.tokenExpired s now then
    match Jira.refreshAccessToken s resp now with
    | (true, s1, _) => (s1.access_token, s1, 1)
    | (false, s1, _) => (none, s1, 1)
  else (s.access_token, s, 0)

/-- `is_authenticated` (src/jira_mcp_stdio.py lines 264-266):
`bool(self.access_token and self.cloud_id)`. -/
def Jira.isAuthenticated (s : Jira.MgrState) : Bool :=
  pyTruthy s.access_token && pyTruthy s.cloud_id

/-- `wait_for_authorization` (src/jira_mcp_stdio.py lines 260-262):
`self.auth_complete.wait(timeout)` — `True` immediately when the event is
already set, otherwise `True` iff the event is set within the timeout, which
the environment flag `signalWithinTimeout` decides.  The numeric timeout is
irrelevant to the modelled outcome. -/
def Jira.waitForAuthorization (s : Jira.MgrState) (signalWithinTimeout : Bool) : Bool :=
  s.authComplete || signalWithinTimeout

/-- `_clear_tokens` (src/jira_mcp_stdio.py lines 268-273): nulls the four
token fields and nothing else — in particular `auth_complete` is untouched. -/
def Jira.clearTokens (s : Jira.MgrState) : Jira.MgrState :=
  { s with access_token := none, refresh_token := none,
           cloud_id := none, expires_at := none }

/-- `start_oauth_flow` (src/jira_mcp_stdio.py lines 76-102): starts the
callback server thread and opens the browser; none of the modelled fields are
written (the returned URL is not inspected by any claim). -/
def Jira.startOauthFlow (s : Jira.MgrState) : Jira.MgrState :=
  s

/-- Observable outcome of one invocation of the Flask `oauth_callback`
handler: the body returned to the browser, how many times
`auth_complete.set()` ran, and how many times `_exchange_code_for_tokens`
was invoked. -/
structure CallbackResult where
  body : String
  setCount : Nat
  exchangeAttempts : Nat
deriving DecidableEq

/-- `oauth_callback` (src/jira_mcp_stdio.py lines 112-132).  `code` and
`error` are `request.args.get(...)` (absent → `None`); the source tests them
with Python truthiness, `error` first.  The exchange itself never raises (its
own body catches every exception and returns `False`), so its outcome is the
boolean produced by `Jira.exchangeCodeForTokens` under the given environment. -/
def Jira.oauthCallback (s : Jira.MgrState) (code err : Option String)
    (resp : Option TokenResponse) (cloudEnv : Option String) (now : Int) :
    Jira.MgrState × CallbackResult :=
  if pyTruthy err then
    ({ s with authComplete := true },
     ⟨"OAuth failed. Please check the logs.", 1, 0⟩)
  else if pyTruthy code then
    match Jira.exchangeCodeForTokens s resp cloudEnv now with
    | (true, s1) =>
      ({ s1 with authComplete := true },
       ⟨"OAuth successful! You can close this window.", 1, 1⟩)
    | (false, s1) =>
      ({ s1 with authComplete := true },
       ⟨"OAuth failed during token exchange. Please check the logs.", 1, 1⟩)
  else (s, ⟨"Invalid callback", 0, 0⟩)

/-- `JiraMCPServer` session-level state (src/jira_mcp_stdio.py lines 278-295).
`oauth_manager` is `Optional` exactly as in `__init__` (it stays `None` only
on the fatal-credentials path, which `sys.exit`s). -/
structure Jira.ServerState where
  oauth_manager : Option Jira.MgrState
  auth_method : Option String
  session_authenticated : Bool
deriving DecidableEq

/-- `clear_session` (src/jira_mcp_stdio.py lines 351-363): calls
`_clear_tokens` on the manager when present, then resets
`session_authenticated` and `auth_method`.  It has no failure path. -/
def Jira.clearSession (s : Jira.ServerState) : Jira.ServerState :=
  { s with oauth_manager := s.oauth_manager.map Jira.clearTokens,
           session_authenticated := false,
           auth_method := none }

/-
`ADOOAuthTokenManager` of src/ado_mcp_stdio.py.  Organizations are represented
by their `accountName` strings: the dicts the source builds are only ever
compared and selected by name in the modelled operations.
-/

/-- Mutable state of `ADOOAuthTokenManager` (src/ado_mcp_stdio.py lines 59-78). -/
structure ADO.MgrState where
  client_id : String
  client_secret : String
  tenant_id : String
  redirect_uri : String
  access_token : Option String
  refresh_token : Option String
  expires_at : Option Int
  ado_url : Option String
  organizations : Option (List String)
  selected_organization : Option String
  authComplete : Bool
deriving DecidableEq

/-- Summary of the two HTTP calls inside `_get_ado_organizations`
(src/ado_mcp_stdio.py lines 225-305): `fail` for any non-200, missing
memberId, or exception (state untouched, returns `False`); `noOrgs` for a 200
accounts response with an empty `value` list (`self.organizations = []`,
returns `False`); `got names` for a 200 response whose processed entries have
the given account names (`self.organizations` is replaced, returns `True`). -/
inductive OrgFetch
  | fail
  | noOrgs
  | got (names : List String)
deriving DecidableEq

/-- `_get_ado_organizations` restricted to its effect on the state.  The
leading guard mirrors `if not self.access_token: ... return False`.
`ado_url` and `selected_organization` are never written here (the source
explicitly does not auto-select). -/
def ADO.getAdoOrganizations (s : ADO.MgrState) (env : OrgFetch) : Bool × ADO.MgrState :=
  if pyTruthy s.access_token = false then (false, s)
  else
    match env with
    | .fail => (false, s)
    | .noOrgs => (false, { s with organizations := some [] })
    | .got names => (true, { s with organizations := some names })

/-- `_exchange_code_for_tokens` (src/ado_mcp_stdio.py lines 156-213).  Same
shape as the Jira exchange, except that on HTTP 200 the cached organization
data is cleared before `_get_ado_organizations` runs, and a failure of that
organization fetch (its own `try` swallows exceptions) does not change the
`True` verdict. -/
def ADO.exchangeCodeForTokens (s : ADO.MgrState) (resp : Option TokenResponse)
    (orgEnv : OrgFetch) (now : Int) : Bool × ADO.MgrState :=
  match resp with
  | none => (false, s)
  | some r =>
    if r.status = 200 then
      let s1 := { s with
        access_token := r.body.access_token,
        refresh_token := r.body.refresh_token,
        expires_at := some (now + r.body.expires_in.getD 3600 - 300),
        organizations := none,
        selected_organization := none,
        ado_url := none }
      (true, (ADO.getAdoOrganizations s1 orgEnv).2)
    else (false, s)

/-- `refresh_access_token` (src/ado_mcp_stdio.py lines 438-476); behaviour is
identical to the Jira version (the extra `scope` field in the POST payload
does not affect the state transition).  The third component counts POSTs to
the token endpoint. -/
def ADO.refreshAccessToken (s : ADO.MgrState) (resp : Option TokenResponse)
    (now : Int) : Bool × ADO.MgrState × Nat :=
  if pyTruthy s.refresh_token = false then (false, s, 0)
  else
    match resp with
    | none => (false, s, 1)
    | some r =>
      if r.status = 200 then
        (true,
         { s with
            access_token := r.body.access_token,
            refresh_token := match r.body.refresh_token with
              | some t => some t
              | none => s.refresh_token,
            expires_at := some (now + r.body.expires_in.getD 3600 - 300) },
         1)
      else (false, s, 1)

/-- Expiry test of the ADO `get_valid_token` (same line of code as Jira's). -/
def ADO.tokenExpired (s : ADO.MgrState) (now : Int) : Bool :=
  pyTruthyInt s.expires_at && decide (now ≥ s.expires_at.getD 0)

/-- `get_valid_token` (src/ado_mcp_stdio.py lines 478-489).  The third
component counts invocations of `refresh_access_token`. -/
def ADO.getValidToken (s : ADO.MgrState) (resp : Option TokenResponse)
    (now : Int) : Option String × ADO.MgrState × Nat :=
  if pyTruthy s.access_token = false then (none, s, 0)
  else if ADO.tokenExpired s now then
    match ADO.refreshAccessToken s resp now with
    | (true, s1, _) => (s1.access_token, s1, 1)
    | (false, s1, _) => (none, s1, 1)
  else (s.access_token, s, 0)

/-- `is_authenticated` (src/ado_mcp_stdio.py lines 495-502): the method
computes `has_orgs` only for a debug log line and returns
`bool(self.access_token)`. -/
def ADO.isAuthenticated (s : ADO.MgrState) : Bool :=
  pyTruthy s.access_token

/-- `wait_for_authorization` (src/ado_mcp_stdio.py lines 491-493): identical
to the Jira version. -/
def ADO.waitForAuthorization (s : ADO.MgrState) (signalWithinTimeout : Bool) : Bool :=
  s.authComplete || signalWithinTimeout

/-- `_clear_tokens` (src/ado_mcp_stdio.py lines 504-511): nulls the six
session fields; `auth_complete` is untouched. -/
def ADO.clearTokens (s : ADO.MgrState) : ADO.MgrState :=
  { s with access_token := none, refresh_token := none, expires_at := none,
           ado_url := none, organizations := none, selected_organization := none }

/-- `start_oauth_flow` (src/ado_mcp_stdio.py lines 82-107): no modelled field
is written. -/
def ADO.startOauthFlow (s : ADO.MgrState) : ADO.MgrState :=
  s

/-- `select_organization` (src/ado_mcp_stdio.py lines 307-347).  `validateOk`
is the outcome of `_validate_organization_access` (an HTTP probe of the
organization's projects endpoint).  On validation success the organization is
appended to the cached list when absent and selected; otherwise the source
falls back to searching the cached list by `accountName` (an empty or `None`
cache fails). -/
def ADO.selectOrganization (s : ADO.MgrState) (orgName : String)
    (validateOk : Bool) : Bool × ADO.MgrState :=
  if validateOk then
    let orgs := s.organizations.getD []
    let orgs1 := if orgs.contains orgName then orgs else orgs ++ [orgName]
    (true, { s with organizations := some orgs1,
                    selected_organization := some orgName,
                    ado_url := some ("https://dev.azure.com/" ++ orgName) })
  else
    match s.organizations with
    | none => (false, s)
    | some [] => (false, s)
    | some l =>
      if l.contains orgName then
        (true, { s with selected_organization := some orgName,
                        ado_url := some ("https://dev.azure.com/" ++ orgName) })
      else (false, s)

/-- `oauth_callback` (src/ado_mcp_stdio.py lines 117-144).  Same structure as
the Jira callback (`error` tested first, then `code`, each with Python
truthiness); the `except` arm around the exchange is unreachable because
`_exchange_code_for_tokens` catches every exception itself and returns
`False`, so the outcome is the boolean produced by
`ADO.exchangeCodeForTokens`. -/
def ADO.oauthCallback (s : ADO.MgrState) (code err : Option String)
    (resp : Option TokenResponse) (orgEnv : OrgFetch) (now : Int) :
    ADO.MgrState × CallbackResult :=
  if pyTruthy err then
    ({ s with authComplete := true },
     ⟨"OAuth failed. Please check the logs.", 1, 0⟩)
  else if pyTruthy code then
    match ADO.exchangeCodeForTokens s resp orgEnv now with
    | (true, s1) =>
      ({ s1 with authComplete := true },
       ⟨"OAuth successful! You can close this window.", 1, 1⟩)
    | (false, s1) =>
      ({ s1 with authComplete := true },
       ⟨"OAuth failed during token exchange. Please check the logs.", 1, 1⟩)
  else (s, ⟨"Invalid callback", 0, 0⟩)

/-- `ADOMCPServer` session-level state (src/ado_mcp_stdio.py lines 516-536). -/
structure ADO.ServerState where
  oauth_manager : Option ADO.MgrState
  auth_method : Option String
  session_authenticated : Bool
deriving DecidableEq

/-- `clear_session` (src/ado_mcp_stdio.py lines 597-609): calls
`_clear_tokens` on the manager when present, then resets
`session_authenticated` and `auth_method`.  It has no failure path. -/
def ADO.clearSession (s : ADO.ServerState) : ADO.ServerState :=
  { s with oauth_manager := s.oauth_manager.map ADO.clearTokens,
           session_authenticated := false,
           auth_method := none }

/-
Process-level operation alphabets, used to state the invariant that the
one-shot `auth_complete` event, once set, is never cleared by any modelled
operation of either server.
-/

/-- One state-affecting operation of the Jira manager, with its HTTP / clock
environment baked in.  `clearOp` covers both `_clear_tokens` and the
manager-side effect of `JiraMCPServer.clear_session`. -/
inductive Jira.Op
  | exchangeOp (resp : Option TokenResponse) (cloudEnv : Option String) (now : Int)
  | refreshOp (resp : Option TokenResponse) (now : Int)
  | getValidOp (resp : Option TokenResponse) (now : Int)
  | clearOp
  | startFlowOp
  | waitOp (signal : Bool)
  | callbackOp (code err : Option String) (resp : Option TokenResponse)
      (cloudEnv : Option String) (now : Int)

/-- State transition of one Jira manager operation. -/
def Jira.applyOp : Jira.Op → Jira.MgrState → Jira.MgrState
  | .exchangeOp resp env now, s => (Jira.exchangeCodeForTokens s resp env now).2
  | .refreshOp resp now, s => (Jira.refreshAccessToken s resp now).2.1
  | .getValidOp resp now, s => (Jira.getValidToken s resp now).2.1
  | .clearOp, s => Jira.clearTokens s
  | .startFlowOp, s => Jira.startOauthFlow s
  | .waitOp _, s => s
  | .callbackOp code err resp env now, s => (Jira.oauthCallback s code err resp env now).1

/-- Running a whole sequence of Jira manager operations. -/
def Jira.run (ops : List Jira.Op) (s : Jira.MgrState) : Jira.MgrState :=
  ops.foldl (fun st op => Jira.applyOp op st) s

/-- One state-affecting operation of the ADO manager. -/
inductive ADO.Op
  | exchangeOp (resp : Option TokenResponse) (orgEnv : OrgFetch) (now : Int)
  | refreshOp (resp : Option TokenResponse) (now : Int)
  | getValidOp (resp : Option TokenResponse) (now : Int)
  | getOrgsOp (env : OrgFetch)
  | selectOrgOp (orgName : String) (validateOk : Bool)
  | clearOp
  | startFlowOp
  | waitOp (signal : Bool)
  | callbackOp (code err : Option String) (resp : Option TokenResponse)
      (orgEnv : OrgFetch) (now : Int)

/-- State transition of one ADO manager operation. -/
def ADO.applyOp : ADO.Op → ADO.MgrState → ADO.MgrState
  | .exchangeOp resp env now, s => (ADO.exchangeCodeForTokens s resp env now).2
  | .refreshOp resp now, s => (ADO.refreshAccessToken s resp now).2.1
  | .getValidOp resp now, s => (ADO.getValidToken s resp now).2.1
  | .getOrgsOp env, s => (ADO.getAdoOrganizations s env).2
  | .selectOrgOp orgName ok, s => (ADO.selectOrganization s orgName ok).2
  | .clearOp, s => ADO.clearTokens s
  | .startFlowOp, s => ADO.startOauthFlow s
  | .waitOp _, s => s
  | .callbackOp code err resp env now, s => (ADO.oauthCallback s code err resp env now).1

/-- Running a whole sequence of ADO manager operations. -/
def ADO.run (ops : List ADO.Op) (s : ADO.MgrState) : ADO.MgrState :=
  ops.foldl (fun st op => ADO.applyOp op st) s

/- Helper lemmas: no modelled operation lowers the `authComplete` flag. -/

lemma Jira.getCloudId_authComplete (s : Jira.MgrState) (env : Option String) :
    (Jira.getCloudId s env).authComplete = s.authComplete := by
  unfold Jira.getCloudId
  split
  · rfl
  · cases env <;> rfl

lemma Jira.exchange_authComplete (s : Jira.MgrState) (resp : Option TokenResponse)
    (env : Option String) (now : Int) :
    ((Jira.exchangeCodeForTokens s resp env now).2).authComplete = s.authComplete := by
  unfold Jira.exchangeCodeForTokens
  cases resp with
  | none => rfl
  | some r =>
    simp only
    split
    · exact Jira.getCloudId_authComplete _ _
    · rfl

lemma Jira.refresh_authComplete (s : Jira.MgrState) (resp : Option TokenResponse)
    (now : Int) :
    ((Jira.refreshAccessToken s resp now).2.1).authComplete = s.authComplete := by
  unfold Jira.refreshAccessToken
  split
  · rfl
  · cases resp with
    | none => rfl
    | some r =>
      simp only
      split <;> rfl

lemma Jira.getValidToken_authComplete (s : Jira.MgrState) (resp : Option TokenResponse)
    (now : Int) :
    ((Jira.getValidToken s resp now).2.1).authComplete = s.authComplete := by
  unfold Jira.getValidToken
  split
  · rfl
  · split
    · have h := Jira.refresh_authComplete s resp now
      split <;> rename_i heq <;> rw [heq] at h <;> exact h
    · rfl

lemma Jira.callback_authComplete (s : Jira.MgrState) (code err : Option String)
    (resp : Option TokenResponse) (env : Option String) (now : Int)
    (h : s.authComplete = true) :
    ((Jira.oauthCallback s code err resp env now).1).authComplete = true := by
  unfold Jira.oauthCallback
  split
  · rfl
  · split
    · split <;> rfl
    · exact h

lemma Jira.applyOp_authComplete (op : Jira.Op) (s : Jira.MgrState)
    (h : s.authComplete = true) :
    (Jira.applyOp op s).authComplete = true := by
  cases op with
  | exchangeOp resp env now => rw [Jira.applyOp, Jira.exchange_authComplete]; exact h
  | refreshOp resp now => rw [Jira.applyOp, Jira.refresh_authComplete]; exact h
  | getValidOp resp now => rw [Jira.applyOp, Jira.getValidToken_authComplete]; exact h
  | clearOp => exact h
  | startFlowOp => exact h
  | waitOp sig => exact h
  | callbackOp code err resp env now => exact Jira.callback_authComplete _ _ _ _ _ _ h

lemma Jira.run_authComplete (ops : List Jira.Op) (s : Jira.MgrState)
    (h : s.authComplete = true) :
    (Jira.run ops s).authComplete = true := by
  induction ops generalizing s with
  | nil => exact h
  | cons op rest ih => exact ih _ (Jira.applyOp_authComplete op s h)

lemma ADO.getOrgs_authComplete (s : ADO.MgrState) (env : OrgFetch) :
    ((ADO.getAdoOrganizations s env).2).authComplete = s.authComplete := by
  unfold ADO.getAdoOrganizations
  split
  · rfl
  · cases env <;> rfl

lemma ADO.exchangeAdo_authComplete (s : ADO.MgrState) (resp : Option TokenResponse)
    (env : OrgFetch) (now : Int) :
    ((ADO.exchangeCodeForTokens s resp env now).2).authComplete = s.authComplete := by
  unfold ADO.exchangeCodeForTokens
  cases resp with
  | none => rfl
  | some r =>
    simp only
    split
    · exact ADO.getOrgs_authComplete _ _
    · rfl

lemma ADO.refreshAdo_authComplete (s : ADO.MgrState) (resp : Option TokenResponse)
    (now : Int) :
    ((ADO.refreshAccessToken s resp now).2.1).authComplete = s.authComplete := by
  unfold ADO.refreshAccessToken
  split
  · rfl
  · cases resp with
    | none => rfl
    | some r =>
      simp only
      split <;> rfl

lemma ADO.getValidAdo_authComplete (s : ADO.MgrState) (resp : Option TokenResponse)
    (now : Int) :
    ((ADO.getValidToken s resp now).2.1).authComplete = s.authComplete := by
  unfold ADO.getValidToken
  split
  · rfl
  · split
    · have h := ADO.refreshAdo_authComplete s resp now
      split <;> rename_i heq <;> rw [heq] at h <;> exact h
    · rfl

lemma ADO.selectOrg_authComplete (s : ADO.MgrState) (orgName : String) (ok : Bool) :
    ((ADO.selectOrganization s orgName ok).2).authComplete = s.authComplete := by
  unfold ADO.selectOrganization
  split
  · rfl
  · split <;> (try rfl)
    split <;> rfl

lemma ADO.callbackAdo_authComplete (s : ADO.MgrState) (code err : Option String)
    (resp : Option TokenResponse) (env : OrgFetch) (now : Int)
    (h : s.authComplete = true) :
    ((ADO.oauthCallback s code err resp env now).1).authComplete = true := by
  unfold ADO.oauthCallback
  split
  · rfl
  · split
    · split <;> rfl
    · exact h

lemma ADO.applyOpAdo_authComplete (op : ADO.Op) (s : ADO.MgrState)
    (h : s.authComplete = true) :
    (ADO.applyOp op s).authComplete = true := by
  cases op with
  | exchangeOp resp env now => rw [ADO.applyOp, ADO.exchangeAdo_authComplete]; exact h
  | refreshOp resp now => rw [ADO.applyOp, ADO.refreshAdo_authComplete]; exact h
  | getValidOp resp now => rw [ADO.applyOp, ADO.getValidAdo_authComplete]; exact h
  | getOrgsOp env => rw [ADO.applyOp, ADO.getOrgs_authComplete]; exact h
  | selectOrgOp orgName ok => rw [ADO.applyOp, ADO.selectOrg_authComplete]; exact h
  | clearOp => exact h
  | startFlowOp => exact h
  | waitOp sig => exact h
  | callbackOp code err resp env now => exact ADO.callbackAdo_authComplete _ _ _ _ _ _ h

lemma ADO.runAdo_authComplete (ops : List ADO.Op) (s : ADO.MgrState)
    (h : s.authComplete = true) :
    (ADO.run ops s).authComplete = true := by
  induction ops generalizing s with
  | nil => exact h
  | cons op rest ih => exact ih _ (ADO.applyOpAdo_authComplete op s h)

/- Claim theorems. -/

/-- C1 counterexample: a Jira manager state holding an access token but no
cloud id has `is_authenticated() = False`, so token presence alone does not
decide readiness for the Jira manager — `cloud_id` is part of the check. -/
theorem jira_authenticated_requires_cloud_id_cex :
    pyTruthy (Jira.MgrState.mk "id" "secret" "http://localhost:9000/oauth/callback"
      (some "tok") none none none false).access_token = true ∧
    Jira.isAuthenticated (Jira.MgrState.mk "id" "secret" "http://localhost:9000/oauth/callback"
      (some "tok") none none none false) = false := by
  constructor <;> rfl

/-- C1 (amended): the ADO manager's `is_authenticated()` is exactly truthiness
of `access_token` (the organization context is not part of the check), while
the Jira manager's `is_authenticated()` is the conjunction
`bool(self.access_token and self.cloud_id)` — its resource context (the cloud
id) is part of the readiness check. -/
theorem is_authenticated_characterization (sj : Jira.MgrState) (sa : ADO.MgrState) :
    ADO.isAuthenticated sa = pyTruthy sa.access_token ∧
    Jira.isAuthenticated sj = (pyTruthy sj.access_token && pyTruthy sj.cloud_id) :=
  ⟨rfl, rfl⟩

/-- C2 (code evaluated at the failing input): the ADO dispatcher has no
notification branch, so the line `{"method": "notifications/initialized"}`
produces a method-not-found response on stdout, while the Jira dispatcher
produces no response for the same line. -/
theorem ado_responds_to_initialized_notification :
    ADO.processLines [Line.req (some "notifications/initialized") none] =
      [⟨none, RespBody.result (RpcResult.errorObject (-32601)
        "Method not found: notifications/initialized")⟩] ∧
    Jira.processLines [Line.req (some "notifications/initialized") none] = [] := by
  constructor <;> rfl

/-- C3 (code evaluated at the failing input): for an unrouted method both
dispatchers return an envelope whose `-32601` error object sits inside the
`"result"` member — the body is `RespBody.result`, not the top-level
`RespBody.error` the spec's envelope prescribes. -/
theorem unknown_method_error_wrapped_in_result :
    Jira.handleRequest (Line.req (some "does/not/exist") (some 7)) =
      some ⟨some 7, RespBody.result (RpcResult.errorObject (-32601)
        "Method not found: does/not/exist")⟩ ∧
    ADO.handleRequest (Line.req (some "does/not/exist") (some 7)) =
      some ⟨some 7, RespBody.result (RpcResult.errorObject (-32601)
        "Method not found: does/not/exist")⟩ := by
  constructor <;> rfl

/-- C5: when `_exchange_code_for_tokens` sees a transport exception
(`resp = none`) or any non-200 status, it returns `False` and the manager
state — token fields and resource context included — is exactly what it was
before the call, for both managers. -/
theorem exchange_failure_preserves_state (sj : Jira.MgrState) (sa : ADO.MgrState)
    (cloudEnv : Option String) (orgEnv : OrgFetch) (now : Int) :
    Jira.exchangeCodeForTokens sj none cloudEnv now = (false, sj) ∧
    ADO.exchangeCodeForTokens sa none orgEnv now = (false, sa) ∧
    (∀ r : TokenResponse, r.status ≠ 200 →
      Jira.exchangeCodeForTokens sj (some r) cloudEnv now = (false, sj) ∧
      ADO.exchangeCodeForTokens sa (some r) orgEnv now = (false, sa)) := by
  refine ⟨rfl, rfl, fun r hr => ⟨?_, ?_⟩⟩
  · simp [Jira.exchangeCodeForTokens, hr]
  · simp [ADO.exchangeCodeForTokens, hr]

/-- C5 witness: a 400 exchange response leaves concrete populated manager
states untouched. -/
theorem exchange_failure_preserves_state_witness :
    Jira.exchangeCodeForTokens
        (Jira.MgrState.mk "id" "secret" "uri" (some "at") (some "rt") (some "cid") (some 10) false)
        (some ⟨400, ⟨none, none, none⟩⟩) none 5 =
      (false, Jira.MgrState.mk "id" "secret" "uri" (some "at") (some "rt") (some "cid") (some 10) false) ∧
    ADO.exchangeCodeForTokens
        (ADO.MgrState.mk "id" "secret" "tid" "uri" (some "at") (some "rt") (some 10)
          (some "https://dev.azure.com/org") (some ["org"]) (some "org") false)
        (some ⟨400, ⟨none, none, none⟩⟩) OrgFetch.fail 5 =
      (false, ADO.MgrState.mk "id" "secret" "tid" "uri" (some "at") (some "rt") (some 10)
        (some "https://dev.azure.com/org") (some ["org"]) (some "org") false) :=
  (exchange_failure_preserves_state _ _ none OrgFetch.fail 5).2.2
    ⟨400, ⟨none, none, none⟩⟩ (by decide)

/-- Record-level fact used by C6: `_get_cloud_id` never writes `expires_at`. -/
lemma Jira.getCloudId_expires_at (s : Jira.MgrState) (env : Option String) :
    (Jira.getCloudId s env).expires_at = s.expires_at := by
  unfold Jira.getCloudId
  split
  · rfl
  · cases env <;> rfl

/-- Record-level fact used by C6: `_get_ado_organizations` never writes
`expires_at`. -/
lemma ADO.getOrgs_expires_at (s : ADO.MgrState) (env : OrgFetch) :
    ((ADO.getAdoOrganizations s env).2).expires_at = s.expires_at := by
  unfold ADO.getAdoOrganizations
  split
  · rfl
  · cases env <;> rfl

/-- C6: a successful (HTTP 200) code exchange whose body carries
`expires_in = e` leaves both managers with
`expires_at = now + e - 300` (the five-minute safety margin). -/
theorem exchange_success_sets_expiry (sj : Jira.MgrState) (sa : ADO.MgrState)
    (r : TokenResponse) (cloudEnv : Option String) (orgEnv : OrgFetch)
    (now e : Int) (hs : r.status = 200) (he : r.body.expires_in = some e) :
    ((Jira.exchangeCodeForTokens sj (some r) cloudEnv now).2).expires_at =
      some (now + e - 300) ∧
    ((ADO.exchangeCodeForTokens sa (some r) orgEnv now).2).expires_at =
      some (now + e - 300) := by
  constructor
  · simp [Jira.exchangeCodeForTokens, hs, Jira.getCloudId_expires_at, he]
  · simp [ADO.exchangeCodeForTokens, hs, ADO.getOrgs_expires_at, he]

/-- C6 witness: an exchange at `now = 1000` with `expires_in = 3600` yields
`expires_at = 4300 = now + 3300`. -/
theorem exchange_success_sets_expiry_witness :
    ((Jira.exchangeCodeForTokens
        (Jira.MgrState.mk "id" "secret" "uri" none none none none false)
        (some ⟨200, ⟨some "at", some "rt", some 3600⟩⟩) none 1000).2).expires_at =
      some 4300 ∧
    ((ADO.exchangeCodeForTokens
        (ADO.MgrState.mk "id" "secret" "tid" "uri" none none none none none none false)
        (some ⟨200, ⟨some "at", some "rt", some 3600⟩⟩) OrgFetch.fail 1000).2).expires_at =
      some 4300 := by
  have h := exchange_success_sets_expiry
    (Jira.MgrState.mk "id" "secret" "uri" none none none none false)
    (ADO.MgrState.mk "id" "secret" "tid" "uri" none none none none none none false)
    ⟨200, ⟨some "at", some "rt", some 3600⟩⟩ none OrgFetch.fail 1000 3600 rfl rfl
  simpa using h

/-- C4: for both managers, `get_valid_token` returns `None` without a refresh
attempt when no (truthy) access token is stored; when the stored expiry is set
and has passed it performs exactly one `refresh_access_token` call and then
returns the refreshed token on success and `None` on failure; and otherwise it
returns the stored token and state unchanged with no refresh attempt. -/
theorem get_valid_token_spec (sj : Jira.MgrState) (sa : ADO.MgrState)
    (resp : Option TokenResponse) (now : Int) :
    (pyTruthy sj.access_token = false → Jira.getValidToken sj resp now = (none, sj, 0)) ∧
    (pyTruthy sj.access_token = true → Jira.tokenExpired sj now = true →
      (Jira.getValidToken sj resp now).2.2 = 1 ∧
      ((Jira.refreshAccessToken sj resp now).1 = true →
        (Jira.getValidToken sj resp now).1 =
          (Jira.refreshAccessToken sj resp now).2.1.access_token ∧
        (Jira.getValidToken sj resp now).2.1 = (Jira.refreshAccessToken sj resp now).2.1) ∧
      ((Jira.refreshAccessToken sj resp now).1 = false →
        (Jira.getValidToken sj resp now).1 = none)) ∧
    (pyTruthy sj.access_token = true → Jira.tokenExpired sj now = false →
      Jira.getValidToken sj resp now = (sj.access_token, sj, 0)) ∧
    (pyTruthy sa.access_token = false → ADO.getValidToken sa resp now = (none, sa, 0)) ∧
    (pyTruthy sa.access_token = true → ADO.tokenExpired sa now = true →
      (ADO.getValidToken sa resp now).2.2 = 1 ∧
      ((ADO.refreshAccessToken sa resp now).1 = true →
        (ADO.getValidToken sa resp now).1 =
          (ADO.refreshAccessToken sa resp now).2.1.access_token ∧
        (ADO.getValidToken sa resp now).2.1 = (ADO.refreshAccessToken sa resp now).2.1) ∧
      ((ADO.refreshAccessToken sa resp now).1 = false →
        (ADO.getValidToken sa resp now).1 = none)) ∧
    (pyTruthy sa.access_token = true → ADO.tokenExpired sa now = false →
      ADO.getValidToken sa resp now = (sa.access_token, sa, 0)) := by
  refine ⟨fun h => ?_, fun h1 h2 => ?_, fun h1 h2 => ?_,
          fun h => ?_, fun h1 h2 => ?_, fun h1 h2 => ?_⟩
  · simp [Jira.getValidToken, h]
  · rcases hr : Jira.refreshAccessToken sj resp now with ⟨ok, s1, n⟩
    cases ok <;> simp [Jira.getValidToken, h1, h2, hr]
  · simp [Jira.getValidToken, h1, h2]
  · simp [ADO.getValidToken, h]
  · rcases hr : ADO.refreshAccessToken sa resp now with ⟨ok, s1, n⟩
    cases ok <;> simp [ADO.getValidToken, h1, h2, hr]
  · simp [ADO.getValidToken, h1, h2]

/-- C4 witness: at `now = 100` a Jira state whose token expired at 50
performs one refresh and returns the refreshed token, and a fresh ADO state
(expiry 500) is returned unchanged with no refresh attempt. -/
theorem get_valid_token_spec_witness :
    (Jira.getValidToken
        (Jira.MgrState.mk "i" "s" "u" (some "old") (some "rt") (some "c") (some 50) false)
        (some ⟨200, ⟨some "new", none, some 3600⟩⟩) 100).1 = some "new" ∧
    (Jira.getValidToken
        (Jira.MgrState.mk "i" "s" "u" (some "old") (some "rt") (some "c") (some 50) false)
        (some ⟨200, ⟨some "new", none, some 3600⟩⟩) 100).2.2 = 1 ∧
    ADO.getValidToken
        (ADO.MgrState.mk "i" "s" "t" "u" (some "at") (some "rt") (some 500) none none none false)
        none 100 =
      (some "at",
       ADO.MgrState.mk "i" "s" "t" "u" (some "at") (some "rt") (some 500) none none none false,
       0) := by
  have hj := (get_valid_token_spec
    (Jira.MgrState.mk "i" "s" "u" (some "old") (some "rt") (some "c") (some 50) false)
    (ADO.MgrState.mk "i" "s" "t" "u" (some "at") (some "rt") (some 500) none none none false)
    (some ⟨200, ⟨some "new", none, some 3600⟩⟩) 100).2.1 (by decide) (by decide)
  have ha := (get_valid_token_spec
    (Jira.MgrState.mk "i" "s" "u" (some "old") (some "rt") (some "c") (some 50) false)
    (ADO.MgrState.mk "i" "s" "t" "u" (some "at") (some "rt") (some 500) none none none false)
    none 100).2.2.2.2.2 (by decide) (by decide)
  exact ⟨((hj.2.1 (by decide)).1).trans (by decide), hj.1, ha⟩

/-- C7: for both managers, `refresh_access_token` with no (truthy) stored
refresh token returns `False` with zero token-endpoint POSTs and an unchanged
state; and on an HTTP 200 response whose body omits `refresh_token`, the old
refresh token is retained while `access_token` and `expires_at` are updated
from the response. -/
theorem refresh_access_token_spec (sj : Jira.MgrState) (sa : ADO.MgrState)
    (resp : Option TokenResponse) (now : Int) :
    (pyTruthy sj.refresh_token = false → Jira.refreshAccessToken sj resp now = (false, sj, 0)) ∧
    (pyTruthy sa.refresh_token = false → ADO.refreshAccessToken sa resp now = (false, sa, 0)) ∧
    (∀ r : TokenResponse, pyTruthy sj.refresh_token = true → r.status = 200 →
      r.body.refresh_token = none →
      Jira.refreshAccessToken sj (some r) now =
        (true,
         { sj with access_token := r.body.access_token,
                   expires_at := some (now + r.body.expires_in.getD 3600 - 300) },
         1)) ∧
    (∀ r : TokenResponse, pyTruthy sa.refresh_token = true → r.status = 200 →
      r.body.refresh_token = none →
      ADO.refreshAccessToken sa (some r) now =
        (true,
         { sa with access_token := r.body.access_token,
                   expires_at := some (now + r.body.expires_in.getD 3600 - 300) },
         1)) := by
  refine ⟨fun h => ?_, fun h => ?_,
          fun r h1 h2 h3 => ?_, fun r h1 h2 h3 => ?_⟩
  · simp [Jira.refreshAccessToken, h]
  · simp [ADO.refreshAccessToken, h]
  · simp [Jira.refreshAccessToken, h1, h2, h3]
  · simp [ADO.refreshAccessToken, h1, h2, h3]

/-- C7 witness: a manager without a refresh token fails fast with no POST,
and a 200 refresh body lacking `refresh_token` keeps `"oldrt"` while updating
the access token and expiry. -/
theorem refresh_access_token_spec_witness :
    Jira.refreshAccessToken
        (Jira.MgrState.mk "i" "s" "u" (some "at") none (some "c") (some 10) false)
        (some ⟨200, ⟨some "newat", some "newrt", some 3600⟩⟩) 1000 =
      (false, Jira.MgrState.mk "i" "s" "u" (some "at") none (some "c") (some 10) false, 0) ∧
    ADO.refreshAccessToken
        (ADO.MgrState.mk "i" "s" "t" "u" (some "at") (some "oldrt") (some 10) none none none false)
        (some ⟨200, ⟨some "newat", none, some 3600⟩⟩) 1000 =
      (true,
       ADO.MgrState.mk "i" "s" "t" "u" (some "newat") (some "oldrt") (some 4300) none none none false,
       1) := by
  have h1 := (refresh_access_token_spec
    (Jira.MgrState.mk "i" "s" "u" (some "at") none (some "c") (some 10) false)
    (ADO.MgrState.mk "i" "s" "t" "u" (some "at") (some "oldrt") (some 10) none none none false)
    (some ⟨200, ⟨some "newat", some "newrt", some 3600⟩⟩) 1000).1 (by decide)
  have h2 := (refresh_access_token_spec
    (Jira.MgrState.mk "i" "s" "u" (some "at") none (some "c") (some 10) false)
    (ADO.MgrState.mk "i" "s" "t" "u" (some "at") (some "oldrt") (some 10) none none none false)
    (some ⟨200, ⟨some "newat", none, some 3600⟩⟩) 1000).2.2.2
    ⟨200, ⟨some "newat", none, some 3600⟩⟩ (by decide) rfl rfl
  exact ⟨h1, h2.trans (by decide)⟩

/-- C8: `clear_session` of both servers always succeeds (it is a total
function of the state), leaves the session fully unauthenticated — every
token field and the resource context of the manager are `None` and
`session_authenticated` is `False` — and is idempotent: a second call on the
already-cleared session is the identity. -/
theorem clear_session_idempotent (sj : Jira.ServerState) (sa : ADO.ServerState) :
    (Jira.clearSession sj).session_authenticated = false ∧
    (Jira.clearSession sj).auth_method = none ∧
    (∀ m : Jira.MgrState, (Jira.clearSession sj).oauth_manager = some m →
      m.access_token = none ∧ m.refresh_token = none ∧ m.cloud_id = none ∧
      m.expires_at = none) ∧
    Jira.clearSession (Jira.clearSession sj) = Jira.clearSession sj ∧
    (ADO.clearSession sa).session_authenticated = false ∧
    (ADO.clearSession sa).auth_method = none ∧
    (∀ m : ADO.MgrState, (ADO.clearSession sa).oauth_manager = some m →
      m.access_token = none ∧ m.refresh_token = none ∧ m.expires_at = none ∧
      m.ado_url = none ∧ m.organizations = none ∧ m.selected_organization = none) ∧
    ADO.clearSession (ADO.clearSession sa) = ADO.clearSession sa := by
  refine ⟨rfl, rfl, ?_, ?_, rfl, rfl, ?_, ?_⟩
  · intro m hm
    cases h : sj.oauth_manager with
    | none => simp [Jira.clearSession, h] at hm
    | some m0 =>
      simp [Jira.clearSession, h] at hm
      subst hm
      exact ⟨rfl, rfl, rfl, rfl⟩
  · cases h : sj.oauth_manager with
    | none => simp [Jira.clearSession, h]
    | some m0 => simp [Jira.clearSession, h, Jira.clearTokens]
  · intro m hm
    cases h : sa.oauth_manager with
    | none => simp [ADO.clearSession, h] at hm
    | some m0 =>
      simp [ADO.clearSession, h] at hm
      subst hm
      exact ⟨rfl, rfl, rfl, rfl, rfl, rfl⟩
  · cases h : sa.oauth_manager with
    | none => simp [ADO.clearSession, h]
    | some m0 => simp [ADO.clearSession, h, ADO.clearTokens]

/-- C8 witness: clearing a fully populated concrete session empties it, the
emptied manager fields are all `None`, and clearing a second time changes
nothing. -/
theorem clear_session_idempotent_witness :
    (Jira.clearSession
        ⟨some (Jira.MgrState.mk "i" "s" "u" (some "at") (some "rt") (some "c") (some 9) true),
         some "oauth", true⟩).session_authenticated = false ∧
    ((Jira.MgrState.mk "i" "s" "u" none none none none true).access_token = none ∧
     (Jira.MgrState.mk "i" "s" "u" none none none none true).refresh_token = none ∧
     (Jira.MgrState.mk "i" "s" "u" none none none none true).cloud_id = none ∧
     (Jira.MgrState.mk "i" "s" "u" none none none none true).expires_at = none) ∧
    Jira.clearSession (Jira.clearSession
        ⟨some (Jira.MgrState.mk "i" "s" "u" (some "at") (some "rt") (some "c") (some 9) true),
         some "oauth", true⟩) =
      Jira.clearSession
        ⟨some (Jira.MgrState.mk "i" "s" "u" (some "at") (some "rt") (some "c") (some 9) true),
         some "oauth", true⟩ ∧
    ADO.clearSession (ADO.clearSession
        ⟨some (ADO.MgrState.mk "i" "s" "t" "u" (some "at") (some "rt") (some 9)
          (some "url") (some ["o"]) (some "o") true),
         some "oauth", true⟩) =
      ADO.clearSession
        ⟨some (ADO.MgrState.mk "i" "s" "t" "u" (some "at") (some "rt") (some 9)
          (some "url") (some ["o"]) (some "o") true),
         some "oauth", true⟩ := by
  have h := clear_session_idempotent
    ⟨some (Jira.MgrState.mk "i" "s" "u" (some "at") (some "rt") (some "c") (some 9) true),
     some "oauth", true⟩
    ⟨some (ADO.MgrState.mk "i" "s" "t" "u" (some "at") (some "rt") (some 9)
      (some "url") (some ["o"]) (some "o") true),
     some "oauth", true⟩
  exact ⟨h.1, h.2.2.1 (Jira.MgrState.mk "i" "s" "u" none none none none true) rfl,
         h.2.2.2.1, h.2.2.2.2.2.2.2⟩

/-- C9: for one invocation of either server's OAuth callback handler — a
request with a (truthy) `code` parameter sets `auth_complete` exactly once
whatever the exchange outcome; a request with a (truthy) `error` parameter
sets it without attempting an exchange; and a request with neither returns
the body `Invalid callback`, never sets the event, and leaves the manager
state unchanged.  (The exchange cannot raise out of the callback: both
implementations of `_exchange_code_for_tokens` catch every exception and
return `False`.) -/
theorem oauth_callback_spec (sj : Jira.MgrState) (sa : ADO.MgrState)
    (code err : Option String) (respj respa : Option TokenResponse)
    (cloudEnv : Option String) (orgEnv : OrgFetch) (now : Int) :
    (pyTruthy code = true →
      (Jira.oauthCallback sj code err respj cloudEnv now).2.setCount = 1 ∧
      (Jira.oauthCallback sj code err respj cloudEnv now).1.authComplete = true ∧
      (ADO.oauthCallback sa code err respa orgEnv now).2.setCount = 1 ∧
      (ADO.oauthCallback sa code err respa orgEnv now).1.authComplete = true) ∧
    (pyTruthy err = true →
      (Jira.oauthCallback sj code err respj cloudEnv now).2.setCount = 1 ∧
      (Jira.oauthCallback sj code err respj cloudEnv now).2.exchangeAttempts = 0 ∧
      (ADO.oauthCallback sa code err respa orgEnv now).2.setCount = 1 ∧
      (ADO.oauthCallback sa code err respa orgEnv now).2.exchangeAttempts = 0) ∧
    (pyTruthy code = false → pyTruthy err = false →
      Jira.oauthCallback sj code err respj cloudEnv now =
        (sj, ⟨"Invalid callback", 0, 0⟩) ∧
      ADO.oauthCallback sa code err respa orgEnv now =
        (sa, ⟨"Invalid callback", 0, 0⟩)) := by
  refine ⟨fun hc => ?_, fun he => ?_, fun hc he => ?_⟩
  · by_cases he : pyTruthy err = true
    · simp [Jira.oauthCallback, ADO.oauthCallback, he]
    · rcases hj : Jira.exchangeCodeForTokens sj respj cloudEnv now with ⟨okj, sj1⟩
      rcases ha : ADO.exchangeCodeForTokens sa respa orgEnv now with ⟨oka, sa1⟩
      cases okj <;> cases oka <;>
        simp [Jira.oauthCallback, ADO.oauthCallback, he, hc, hj, ha]
  · simp [Jira.oauthCallback, ADO.oauthCallback, he]
  · simp [Jira.oauthCallback, ADO.oauthCallback, hc, he]

/-- C9 witness: with `code = "abc"` and a failing exchange both callbacks
still signal exactly once; with `error = "denied"` both signal without an
exchange attempt; with neither parameter both return `Invalid callback` and
do not signal. -/
theorem oauth_callback_spec_witness :
    (Jira.oauthCallback (Jira.MgrState.mk "i" "s" "u" none none none none false)
      (some "abc") none (some ⟨500, ⟨none, none, none⟩⟩) none 0).2.setCount = 1 ∧
    (ADO.oauthCallback (ADO.MgrState.mk "i" "s" "t" "u" none none none none none none false)
      (some "abc") none (some ⟨500, ⟨none, none, none⟩⟩) OrgFetch.fail 0).2.setCount = 1 ∧
    (Jira.oauthCallback (Jira.MgrState.mk "i" "s" "u" none none none none false)
      none (some "denied") none none 0).2.exchangeAttempts = 0 ∧
    Jira.oauthCallback (Jira.MgrState.mk "i" "s" "u" none none none none false)
      none none none none 0 =
      (Jira.MgrState.mk "i" "s" "u" none none none none false,
       ⟨"Invalid callback", 0, 0⟩) := by
  have h1 := (oauth_callback_spec (Jira.MgrState.mk "i" "s" "u" none none none none false)
    (ADO.MgrState.mk "i" "s" "t" "u" none none none none none none false)
    (some "abc") none (some ⟨500, ⟨none, none, none⟩⟩) (some ⟨500, ⟨none, none, none⟩⟩)
    none OrgFetch.fail 0).1 (by decide)
  have h2 := (oauth_callback_spec (Jira.MgrState.mk "i" "s" "u" none none none none false)
    (ADO.MgrState.mk "i" "s" "t" "u" none none none none none none false)
    none (some "denied") none none none OrgFetch.fail 0).2.1 (by decide)
  have h3 := (oauth_callback_spec (Jira.MgrState.mk "i" "s" "u" none none none none false)
    (ADO.MgrState.mk "i" "s" "t" "u" none none none none none none false)
    none none none none none OrgFetch.fail 0).2.2 (by decide) (by decide)
  exact ⟨h1.1, h1.2.2.1, h2.2.1, h3.1⟩

/-- C10: once `auth_complete` is set, no modelled operation of either manager
— token exchange, refresh, `get_valid_token`, `_clear_tokens` (hence
`clear_session`), `start_oauth_flow`, a (possibly timed-out) wait, another
callback, or the ADO organization operations — ever clears it, so after any
sequence of such operations `wait_for_authorization` still returns `True`
immediately, whatever its timeout outcome flag. -/
theorem auth_complete_one_shot (opsj : List Jira.Op) (opsa : List ADO.Op)
    (sj : Jira.MgrState) (sa : ADO.MgrState) (tj ta : Bool)
    (hj : sj.authComplete = true) (ha : sa.authComplete = true) :
    (Jira.run opsj sj).authComplete = true ∧
    Jira.waitForAuthorization (Jira.run opsj sj) tj = true ∧
    (ADO.run opsa sa).authComplete = true ∧
    ADO.waitForAuthorization (ADO.run opsa sa) ta = true := by
  have h1 := Jira.run_authComplete opsj sj hj
  have h2 := ADO.runAdo_authComplete opsa sa ha
  exact ⟨h1, by simp [Jira.waitForAuthorization, h1], h2,
         by simp [ADO.waitForAuthorization, h2]⟩

/-- C10 witness: after a clear, a fresh flow start and a timed-out wait, the
already-set event is still set and a wait returns `True` immediately. -/
theorem auth_complete_one_shot_witness :
    (Jira.run [Jira.Op.clearOp, Jira.Op.startFlowOp, Jira.Op.waitOp false]
      (Jira.MgrState.mk "i" "s" "u" (some "at") (some "rt") (some "c") (some 9) true)).authComplete
      = true ∧
    ADO.waitForAuthorization
      (ADO.run [ADO.Op.clearOp, ADO.Op.startFlowOp, ADO.Op.waitOp false]
        (ADO.MgrState.mk "i" "s" "t" "u" (some "at") (some "rt") (some 9)
          none none none true)) false = true := by
  have h := auth_complete_one_shot
    [Jira.Op.clearOp, Jira.Op.startFlowOp, Jira.Op.waitOp false]
    [ADO.Op.clearOp, ADO.Op.startFlowOp, ADO.Op.waitOp false]
    (Jira.MgrState.mk "i" "s" "u" (some "at") (some "rt") (some "c") (some 9) true)
    (ADO.MgrState.mk "i" "s" "t" "u" (some "at") (some "rt") (some 9) none none none true)
    false false rfl rfl
  exact ⟨h.1, h.2.2.2⟩
